import Mathlib

/-!
Shallow embedding of `teuthology/repo_utils.py`: the repository-state
reconciliation algorithm (`enforce_repo_state` and the git primitives
`clone_repo`, `fetch`, `fetch_branch`, `reset_repo`, `validate_branch`),
the checkout orchestrator `fetch_teuthology_branch`, and the advisory
`FileLock` context manager.

Subprocess behaviour is modelled by an environment oracle `Env : Cmd →
ProcResult` giving, for each spawned command, its exit code and combined
stdout+stderr output.  Filesystem state is an explicit `Fs` record
(directories, plain files, modification times); each operation returns the
updated filesystem, the ordered list of subprocesses it spawned (its
trace), and an `Except`-style outcome mirroring Python's raised
exceptions.
-/

set_option autoImplicit false

namespace RepoUtils

/-- Exit code and combined stdout+stderr of one spawned subprocess
(`proc.wait()` / `proc.stdout.read()` in the source). -/
structure ProcResult where
  exitCode : Nat
  output : String
deriving DecidableEq

/-- The subprocesses `repo_utils.py` can spawn, with the arguments that the
source passes to them.  `touch` is the `subprocess.check_output(('touch',
dest_path))` call inside `enforce_repo_state`; `bootstrap` carries the value
given to the `NO_CLOBBER` environment variable. -/
inductive Cmd where
  | gitClone (branch : String) (repoUrl : String) (destPath : String)
  | gitFetchAll (repoPath : String)
  | gitFetchBranch (repoPath : String) (branch : String)
  | gitReset (destPath : String) (branch : String)
  | touch (path : String)
  | bootstrap (destPath : String) (noClobber : String)
deriving DecidableEq

/-- The environment oracle: what each subprocess would return if spawned. -/
def Env : Type := Cmd → ProcResult

/-- The Python exceptions the module can raise.  `invalidBranchName` is the
`ValueError` from `validate_branch`; `branchNotFound` is
`BranchNotFoundError` (branch, and the repo URL when the source supplies
one); `runtimeError` is `RuntimeError`; `calledProcessError` is an uncaught
`subprocess.CalledProcessError` (from `check_output`); `assertionError` is a
failed `assert` in `FileLock`. -/
inductive RepoErr where
  | invalidBranchName (branch : String)
  | branchNotFound (branch : String) (repoUrl : Option String)
  | runtimeError (msg : String)
  | calledProcessError (c : Cmd)
  | assertionError
deriving DecidableEq

/-- Explicit filesystem state: existing directories, existing plain files,
and file modification times (an association list; a path absent from
`mtimes` reads as mtime 0, i.e. arbitrarily old). -/
structure Fs where
  dirs : List String
  files : List String
  mtimes : List (String × Nat)
deriving DecidableEq

/-- Test that `needle.toList` is a prefix of the character list. -/
def charsPre : List Char → List Char → Bool
  | [], _ => true
  | _ :: _, [] => false
  | c :: cs, d :: ds => (c == d) && charsPre cs ds

/-- Test that `needle` occurs somewhere in the character list. -/
def charsSub : List Char → List Char → Bool
  | needle, [] => charsPre needle []
  | needle, d :: ds => charsPre needle (d :: ds) || charsSub needle ds

/-- Python's `needle in hay` substring test on strings. -/
def strContains (hay needle : String) : Bool :=
  charsSub needle.toList hay.toList

/-- Python's `c in s` membership test for a single character. -/
def strHasChar (s : String) (c : Char) : Bool :=
  s.toList.contains c

/-- Test that `s` starts with `pre`. -/
def strStarts (s pre : String) : Bool :=
  charsPre pre.toList s.toList

/-- Test that `s` ends with `suf`. -/
def strEnds (s suf : String) : Bool :=
  charsPre suf.toList.reverse s.toList.reverse

/-- A character Python's `str.strip()` removes. -/
def charSpace (c : Char) : Bool :=
  c == ' ' || c == '\t' || c == '\n' || c == '\r' || c == '\x0b' || c == '\x0c'

/-- Python's `s.strip()`. -/
def strTrim (s : String) : String :=
  ⟨((s.toList.dropWhile charSpace).reverse.dropWhile charSpace).reverse⟩

/-- Split a character list on newline characters. -/
def splitNl : List Char → List (List Char)
  | [] => [[]]
  | c :: cs =>
    match splitNl cs with
    | [] => [[]]
    | l :: ls => if c == '\n' then [] :: l :: ls else (c :: l) :: ls

/-- Python's `s.split('\n')` (how `readlines` is modelled here). -/
def strSplitNl (s : String) : List String :=
  (splitNl s.toList).map (fun l => ⟨l⟩)

/-- Model of `os.path.isdir`. -/
def Fs.isdir (fs : Fs) (p : String) : Bool := fs.dirs.contains p

/-- Model of `os.path.exists` for plain files (lock files). -/
def Fs.fileExists (fs : Fs) (p : String) : Bool := fs.files.contains p

/-- Look a path up in an mtime association list (0 when absent). -/
def mtimeLookup : List (String × Nat) → String → Nat
  | [], _ => 0
  | (q, t) :: rest, p => if q == p then t else mtimeLookup rest p

/-- Model of `os.stat(p).st_mtime`. -/
def Fs.mtimeOf (fs : Fs) (p : String) : Nat := mtimeLookup fs.mtimes p

/-- Set a path's mtime in an association list. -/
def mtimeSet : List (String × Nat) → String → Nat → List (String × Nat)
  | [], p, t => [(p, t)]
  | (q, u) :: rest, p, t =>
    if q == p then (p, t) :: rest else (q, u) :: mtimeSet rest p t

/-- Effect of `/usr/bin/touch p` at time `t`: the file exists and its mtime
becomes `t`. -/
def Fs.touchFile (fs : Fs) (p : String) (t : Nat) : Fs :=
  { fs with
    files := if fs.files.contains p then fs.files else p :: fs.files,
    mtimes := mtimeSet fs.mtimes p t }

/-- Create a directory entry (effect of a successful `git clone`). -/
def Fs.mkdir (fs : Fs) (p : String) : Fs :=
  { fs with dirs := if fs.dirs.contains p then fs.dirs else p :: fs.dirs }

/-- Create an empty plain file (effect of Python's `file(name, 'w')`). -/
def Fs.createFile (fs : Fs) (p : String) : Fs :=
  { fs with files := if fs.files.contains p then fs.files else p :: fs.files }

/-- Model of `os.remove p`. -/
def Fs.removeFile (fs : Fs) (p : String) : Fs :=
  { fs with
    files := fs.files.filter (fun q => q != p),
    mtimes := fs.mtimes.filter (fun e => e.1 != p) }

/-- Test that `q` is `root` itself or lies beneath it. -/
def underPath (root q : String) : Bool :=
  (q == root) || strStarts q (root ++ "/")

/-- Model of `shutil.rmtree(p, ignore_errors=True)`: remove the tree rooted at `p`;
never raises (a missing tree is simply a no-op). -/
def Fs.rmtree (fs : Fs) (p : String) : Fs :=
  { dirs := fs.dirs.filter (fun q => !(underPath p q)),
    files := fs.files.filter (fun q => !(underPath p q)),
    mtimes := fs.mtimes.filter (fun e => !(underPath p e.1)) }

/-- Spawn one subprocess: ask the oracle for its result and apply the
command's filesystem effect (a successful clone creates the destination
directory; a successful `touch` updates the path's mtime to `now`; the
other commands act on git metadata outside this model). -/
def applyCmd (now : Nat) (env : Env) (fs : Fs) (c : Cmd) : Fs × ProcResult :=
  let r := env c
  match c with
  | .gitClone _ _ dest => (if r.exitCode = 0 then fs.mkdir dest else fs, r)
  | .touch p => (if r.exitCode = 0 then fs.touchFile p now else fs, r)
  | _ => (fs, r)

/-- Source `validate_branch`: raise `ValueError` when the branch name contains a
space character (`if ' ' in branch`). -/
def validate_branch (branch : String) : Except RepoErr Unit :=
  if strHasChar branch ' ' then .error (.invalidBranchName branch) else .ok ()

/-- Source `clone_repo`: validate, spawn `git clone --branch <branch> <url>
<dest>`; on nonzero exit raise `BranchNotFoundError(branch, repo_url)` when
the combined output contains `"Remote branch <branch> not found"`, else
`RuntimeError("git clone failed!")`. -/
def clone_repo (now : Nat) (env : Env) (fs : Fs)
    (repo_url dest_path branch : String) :
    Fs × List Cmd × Except RepoErr Unit :=
  match validate_branch branch with
  | .error e => (fs, [], .error e)
  | .ok _ =>
    let c := Cmd.gitClone branch repo_url dest_path
    let A := applyCmd now env fs c
    if A.2.exitCode ≠ 0 then
      if strContains A.2.output ("Remote branch " ++ branch ++ " not found") then
        (A.1, [c], .error (.branchNotFound branch (some repo_url)))
      else
        (A.1, [c], .error (.runtimeError "git clone failed!"))
    else (A.1, [c], .ok ())

/-- Source `fetch`: spawn `git fetch -p origin`; nonzero exit raises
`RuntimeError("git fetch failed!")` (never `BranchNotFoundError`). -/
def fetch (now : Nat) (env : Env) (fs : Fs) (repo_path : String) :
    Fs × List Cmd × Except RepoErr Unit :=
  let c := Cmd.gitFetchAll repo_path
  let A := applyCmd now env fs c
  if A.2.exitCode ≠ 0 then
    (A.1, [c], .error (.runtimeError "git fetch failed!"))
  else (A.1, [c], .ok ())

/-- Source `fetch_branch`: validate, spawn `git fetch -p origin <branch>`; on
nonzero exit raise `BranchNotFoundError(branch)` when the combined output
contains `"fatal: Couldn't find remote ref <branch>"`, else
`RuntimeError("git fetch failed!")`. -/
def fetch_branch (now : Nat) (env : Env) (fs : Fs)
    (repo_path branch : String) :
    Fs × List Cmd × Except RepoErr Unit :=
  match validate_branch branch with
  | .error e => (fs, [], .error e)
  | .ok _ =>
    let c := Cmd.gitFetchBranch repo_path branch
    let A := applyCmd now env fs c
    if A.2.exitCode ≠ 0 then
      if strContains A.2.output ("fatal: Couldn\x27t find remote ref " ++ branch) then
        (A.1, [c], .error (.branchNotFound branch none))
      else
        (A.1, [c], .error (.runtimeError "git fetch failed!"))
    else (A.1, [c], .ok ())

/-- Source `reset_repo`: validate, run `git reset --hard origin/<branch>` via
`check_output`; the `CalledProcessError` from any nonzero exit is caught and
re-raised as `BranchNotFoundError(branch, repo_url)`. -/
def reset_repo (now : Nat) (env : Env) (fs : Fs)
    (repo_url dest_path branch : String) :
    Fs × List Cmd × Except RepoErr Unit :=
  match validate_branch branch with
  | .error e => (fs, [], .error e)
  | .ok _ =>
    let c := Cmd.gitReset dest_path branch
    let A := applyCmd now env fs c
    if A.2.exitCode ≠ 0 then
      (A.1, [c], .error (.branchNotFound branch (some repo_url)))
    else (A.1, [c], .ok ())

/-- The marker file whose mtime `enforce_repo_state` consults:
`os.stat('/etc/passwd').st_mtime`. -/
def etcPasswd : String := "/etc/passwd"

/-- The `try:` block of `enforce_repo_state`: clone when the destination is
not a directory; else, when `now - mtime('/etc/passwd') > 60`, prune-fetch
and `touch dest_path` (via `check_output`, so a nonzero touch exit is an
uncaught `CalledProcessError`); else skip straight on.  All branches end in
`reset_repo`. -/
def enforce_try (now : Nat) (env : Env) (fs : Fs)
    (repo_url dest_path branch : String) :
    Fs × List Cmd × Except RepoErr Unit :=
  if fs.isdir dest_path = false then
    let C := clone_repo now env fs repo_url dest_path branch
    match C.2.2 with
    | .error e => (C.1, C.2.1, .error e)
    | .ok _ =>
      let R := reset_repo now env C.1 repo_url dest_path branch
      (R.1, C.2.1 ++ R.2.1, R.2.2)
  else if now - fs.mtimeOf etcPasswd > 60 then
    let F := fetch now env fs dest_path
    match F.2.2 with
    | .error e => (F.1, F.2.1, .error e)
    | .ok _ =>
      let tc := Cmd.touch dest_path
      let A := applyCmd now env F.1 tc
      if A.2.exitCode ≠ 0 then
        (A.1, F.2.1 ++ [tc], .error (.calledProcessError tc))
      else
        let R := reset_repo now env A.1 repo_url dest_path branch
        (R.1, F.2.1 ++ [tc] ++ R.2.1, R.2.2)
  else
    reset_repo now env fs repo_url dest_path branch

/-- Source `enforce_repo_state`: validate the branch, run the `try:` block, and on
`BranchNotFoundError` remove the destination tree (when `remove_on_error`)
before re-raising; every other outcome passes through unchanged. -/
def enforce_repo_state (now : Nat) (env : Env) (fs : Fs)
    (repo_url dest_path branch : String) (remove_on_error : Bool) :
    Fs × List Cmd × Except RepoErr Unit :=
  match validate_branch branch with
  | .error e => (fs, [], .error e)
  | .ok _ =>
    let T := enforce_try now env fs repo_url dest_path branch
    match T.2.2 with
    | .error (.branchNotFound b u) =>
      (if remove_on_error then (T.1).rmtree dest_path else T.1,
       T.2.1, .error (.branchNotFound b u))
    | r => (T.1, T.2.1, r)

/-- A log record: `log.info` / `log.warn`. -/
inductive LogEntry where
  | info (s : String)
  | warn (s : String)
deriving DecidableEq

/-- Model of `os.path.join` for the shapes this module uses (an absolute second
component wins; otherwise join with a single separator). -/
def pathJoin (a b : String) : String :=
  if strStarts b "/" then b
  else if a = "" then b
  else if strEnds a "/" then a ++ b
  else a ++ "/" ++ b

/-- Python's `s.rstrip('/')`. -/
def rstripSlashes (s : String) : String :=
  ⟨(s.toList.reverse.dropWhile (fun c => c == '/')).reverse⟩

/-- The `FileLock` object: a lock-file name, the open handle (`None`
outside an acquire/release scope, modelled as `Option Unit`), and the
no-op flag. -/
structure FileLock where
  filename : String
  file : Option Unit
  noop : Bool
deriving DecidableEq

/-- Model of `FileLock.__init__(filename, noop)`. -/
def FileLock.init (filename : String) (noop : Bool) : FileLock :=
  { filename := filename, file := none, noop := noop }

/-- Source `FileLock.__enter__`: unless no-op, assert no handle is open, then open
the lock file for writing (creating it) and take the exclusive `fcntl`
lock.  Blocking on the OS lock has no effect in this sequential model. -/
def FileLock.enter (fs : Fs) (lk : FileLock) : Except RepoErr (Fs × FileLock) :=
  if lk.noop then .ok (fs, lk)
  else if lk.file = none then
    .ok (fs.createFile lk.filename, { lk with file := some () })
  else .error .assertionError

/-- Source `FileLock.__exit__`: unless no-op, assert a handle is open, unlock and
close it (the handle returns to `None`), then delete the lock file only if
it still exists — so a missing file never raises. -/
def FileLock.exit (fs : Fs) (lk : FileLock) : Except RepoErr (Fs × FileLock) :=
  if lk.noop then .ok (fs, lk)
  else
    match lk.file with
    | none => .error .assertionError
    | some _ =>
      .ok ((if fs.fileExists lk.filename then fs.removeFile lk.filename else fs),
           { lk with file := none })

/-- Python's `with FileLock(...)` protocol: run `__enter__`; on success run
the body (which returns auxiliary data `β` — its trace and logs — and its
outcome), then always run `__exit__`, success or failure of the body alike;
the body's outcome propagates. -/
def withFileLock {β : Type} (fs : Fs) (lk : FileLock)
    (body : Fs → Fs × β × Except RepoErr Unit) :
    Fs × FileLock × Option β × Except RepoErr Unit :=
  match FileLock.enter fs lk with
  | .error e => (fs, lk, none, .error e)
  | .ok fl =>
    let B := body fl.1
    match FileLock.exit B.1 fl.2 with
    | .error e2 => (B.1, fl.2, some B.2.1, .error e2)
    | .ok fl2 => (fl2.1, fl2.2, some B.2.1, B.2.2)

/-- Source `fetch_teuthology_branch`: derive the destination and lock paths, and
under the file lock run `enforce_repo_state` on
`<base_url>teuthology.git`; when it succeeds, spawn `./bootstrap` with
`NO_CLOBBER=1`, log each (stripped) output line as a warning when the exit
status is nonzero, log the exit status, and return the destination path
regardless of the bootstrap status.  `readlines()` is modelled as splitting
the combined output on newlines. -/
def fetch_teuthology_branch (now : Nat) (env : Env) (fs : Fs)
    (src_base_path ceph_git_base_url branch : String) (lock : Bool) :
    Fs × List Cmd × List LogEntry × Except RepoErr String :=
  let dest_path := pathJoin src_base_path ("teuthology_" ++ branch)
  let lock_path := rstripSlashes dest_path ++ ".lock"
  let lk := FileLock.init lock_path (!lock)
  let W := withFileLock fs lk (fun fs1 =>
    let url := ceph_git_base_url ++ "teuthology.git"
    let E := enforce_repo_state now env fs1 url dest_path branch true
    match E.2.2 with
    | .error e => (E.1, (E.2.1, ([] : List LogEntry)), .error e)
    | .ok _ =>
      let c := Cmd.bootstrap dest_path "1"
      let pr := env c
      let warnLogs :=
        if pr.exitCode ≠ 0 then
          (strSplitNl pr.output).map (fun l => LogEntry.warn (strTrim l))
        else []
      let logs := warnLogs ++
        [LogEntry.info ("Bootstrap exited with status " ++ toString pr.exitCode)]
      (E.1, (E.2.1 ++ [c], logs), .ok ()))
  let tl := match W.2.2.1 with
    | none => (([] : List Cmd), ([] : List LogEntry))
    | some b => b
  match W.2.2.2 with
  | .error e => (W.1, tl.1, tl.2, .error e)
  | .ok _ => (W.1, tl.1, tl.2, .ok dest_path)

/-- The `Except.isOk` test as a Boolean, for stating that an operation raises
nothing. -/
def exceptOk {ε α : Type} : Except ε α → Bool
  | .ok _ => true
  | .error _ => false

end RepoUtils

namespace RepoUtils

/-! ### Concrete fixtures used by counterexamples and witnesses -/

/-- An environment in which every subprocess succeeds silently. -/
def envZero : Env := fun _ => { exitCode := 0, output := "" }

/-- A present checkout whose own mtime is recent (touched at t=95) while the
`/etc/passwd` marker is old (mtime 0). -/
def fsC1 : Fs :=
  { dirs := ["/src/repo"], files := ["/etc/passwd"],
    mtimes := [("/src/repo", 95), ("/etc/passwd", 0)] }

/-- An empty filesystem. -/
def fsNone : Fs := { dirs := [], files := [], mtimes := [] }

/-- A present `/src/teuthology_main` checkout with a fresh `/etc/passwd`
marker (mtime 95). -/
def fsFresh : Fs :=
  { dirs := ["/src/teuthology_main"], files := ["/etc/passwd"],
    mtimes := [("/etc/passwd", 95)] }

/-- Every subprocess succeeds except `git reset`, which exits 1. -/
def envResetFail : Env := fun c =>
  match c with
  | Cmd.gitReset _ _ => { exitCode := 1, output := "fatal: ambiguous argument" }
  | _ => { exitCode := 0, output := "" }

/-- Environment where `git clone` fails reporting that the remote branch `nope` is missing. -/
def envCloneMissing : Env := fun c =>
  match c with
  | Cmd.gitClone _ _ _ =>
    { exitCode := 128,
      output := "fatal: Remote branch nope not found in upstream origin" }
  | _ => { exitCode := 0, output := "" }

/-- Environment where `git fetch -p origin <branch>` fails reporting a missing remote ref. -/
def envFetchRefMissing : Env := fun c =>
  match c with
  | Cmd.gitFetchBranch _ _ =>
    { exitCode := 128, output := "fatal: Couldn\x27t find remote ref nope" }
  | _ => { exitCode := 0, output := "" }

/-- Every subprocess succeeds except `./bootstrap`, which exits 2 with two
lines of output. -/
def envBootFail : Env := fun c =>
  match c with
  | Cmd.bootstrap _ _ => { exitCode := 2, output := "boom\nbad" }
  | _ => { exitCode := 0, output := "" }

/-- A guarded body that raises (for exercising the lock's failure path). -/
def bodyFail : Fs → Fs × Unit × Except RepoErr Unit :=
  fun f => (f, (), .error (.runtimeError "boom"))

/-- A guarded body that succeeds. -/
def bodyOk : Fs → Fs × Unit × Except RepoErr Unit :=
  fun f => (f, (), .ok ())

/-- A freshly constructed non-noop lock. -/
def lockA : FileLock := FileLock.init "/src/teuthology_main.lock" false

end RepoUtils

namespace RepoUtils

/-! ### Helper lemmas -/

theorem validate_ok {branch : String} (h : strHasChar branch ' ' = false) :
    validate_branch branch = .ok () := by
  simp [validate_branch, h]

theorem applyCmd_snd (now : Nat) (env : Env) (fs : Fs) (c : Cmd) :
    (applyCmd now env fs c).2 = env c := by
  cases c <;> simp [applyCmd]

theorem rmtree_isdir (fs : Fs) (p : String) : (fs.rmtree p).isdir p = false := by
  cases hc : (fs.rmtree p).isdir p with
  | false => rfl
  | true =>
    have hm : p ∈ fs.dirs.filter (fun q => !(underPath p q)) := List.elem_iff.mp hc
    rw [List.mem_filter] at hm
    simp [underPath] at hm

theorem clone_run (now : Nat) (env : Env) (fs : Fs) (u d b : String)
    (hb : strHasChar b ' ' = false) :
    clone_repo now env fs u d b =
      ((if (env (Cmd.gitClone b u d)).exitCode = 0 then fs.mkdir d else fs),
       [Cmd.gitClone b u d],
       if (env (Cmd.gitClone b u d)).exitCode ≠ 0 then
         (if strContains (env (Cmd.gitClone b u d)).output
             ("Remote branch " ++ b ++ " not found") then
           .error (.branchNotFound b (some u))
         else .error (.runtimeError "git clone failed!"))
       else .ok ()) := by
  by_cases hz : (env (Cmd.gitClone b u d)).exitCode = 0
  · simp [clone_repo, validate_ok hb, applyCmd, hz]
  · by_cases hs : strContains (env (Cmd.gitClone b u d)).output
        ("Remote branch " ++ b ++ " not found") = true
    · simp [clone_repo, validate_ok hb, applyCmd, hz, hs]
    · simp [clone_repo, validate_ok hb, applyCmd, hz, hs]

theorem fetch_run (now : Nat) (env : Env) (fs : Fs) (p : String) :
    fetch now env fs p =
      (fs, [Cmd.gitFetchAll p],
       if (env (Cmd.gitFetchAll p)).exitCode ≠ 0 then
         .error (.runtimeError "git fetch failed!")
       else .ok ()) := by
  by_cases hz : (env (Cmd.gitFetchAll p)).exitCode = 0 <;>
    simp [fetch, applyCmd, hz]

theorem fetch_branch_run (now : Nat) (env : Env) (fs : Fs) (p b : String)
    (hb : strHasChar b ' ' = false) :
    fetch_branch now env fs p b =
      (fs, [Cmd.gitFetchBranch p b],
       if (env (Cmd.gitFetchBranch p b)).exitCode ≠ 0 then
         (if strContains (env (Cmd.gitFetchBranch p b)).output
             ("fatal: Couldn\x27t find remote ref " ++ b) then
           .error (.branchNotFound b none)
         else .error (.runtimeError "git fetch failed!"))
       else .ok ()) := by
  by_cases hz : (env (Cmd.gitFetchBranch p b)).exitCode = 0
  · simp [fetch_branch, validate_ok hb, applyCmd, hz]
  · by_cases hs : strContains (env (Cmd.gitFetchBranch p b)).output
        ("fatal: Couldn\x27t find remote ref " ++ b) = true
    · simp [fetch_branch, validate_ok hb, applyCmd, hz, hs]
    · simp [fetch_branch, validate_ok hb, applyCmd, hz, hs]

theorem reset_run (now : Nat) (env : Env) (fs : Fs) (u d b : String)
    (hb : strHasChar b ' ' = false) :
    reset_repo now env fs u d b =
      (fs, [Cmd.gitReset d b],
       if (env (Cmd.gitReset d b)).exitCode ≠ 0 then
         .error (.branchNotFound b (some u))
       else .ok ()) := by
  by_cases hz : (env (Cmd.gitReset d b)).exitCode = 0 <;>
    simp [reset_repo, validate_ok hb, applyCmd, hz]

theorem try_fresh (now : Nat) (env : Env) (fs : Fs) (u d b : String)
    (hdir : fs.isdir d = true)
    (hfresh : ¬(now - fs.mtimeOf etcPasswd > 60)) :
    enforce_try now env fs u d b = reset_repo now env fs u d b := by
  simp [enforce_try, hdir, hfresh]

theorem try_stale (now : Nat) (env : Env) (fs : Fs) (u d b : String)
    (hdir : fs.isdir d = true)
    (hstale : now - fs.mtimeOf etcPasswd > 60)
    (hf : (env (Cmd.gitFetchAll d)).exitCode = 0)
    (ht : (env (Cmd.touch d)).exitCode = 0) :
    enforce_try now env fs u d b =
      ((reset_repo now env (fs.touchFile d now) u d b).1,
       Cmd.gitFetchAll d :: Cmd.touch d ::
         (reset_repo now env (fs.touchFile d now) u d b).2.1,
       (reset_repo now env (fs.touchFile d now) u d b).2.2) := by
  simp [enforce_try, fetch, applyCmd, hdir, hstale, hf, ht]

theorem try_absent (now : Nat) (env : Env) (fs : Fs) (u d b : String)
    (hdir : fs.isdir d = false)
    (hb : strHasChar b ' ' = false)
    (hc : (env (Cmd.gitClone b u d)).exitCode = 0) :
    enforce_try now env fs u d b =
      ((reset_repo now env (fs.mkdir d) u d b).1,
       Cmd.gitClone b u d :: (reset_repo now env (fs.mkdir d) u d b).2.1,
       (reset_repo now env (fs.mkdir d) u d b).2.2) := by
  simp [enforce_try, clone_repo, validate_ok hb, applyCmd, hdir, hc]

theorem enforce_split (now : Nat) (env : Env) (fs : Fs) (u d b : String)
    (roe : Bool) (hb : strHasChar b ' ' = false) :
    enforce_repo_state now env fs u d b roe =
      (match (enforce_try now env fs u d b).2.2 with
       | .error (.branchNotFound bb uu) =>
         ((if roe then ((enforce_try now env fs u d b).1).rmtree d
           else (enforce_try now env fs u d b).1),
          (enforce_try now env fs u d b).2.1,
          .error (.branchNotFound bb uu))
       | r =>
         ((enforce_try now env fs u d b).1,
          (enforce_try now env fs u d b).2.1, r)) := by
  simp only [enforce_repo_state, validate_ok hb]

theorem enforce_result (now : Nat) (env : Env) (fs : Fs) (u d b : String)
    (roe : Bool) (hb : strHasChar b ' ' = false) :
    (enforce_repo_state now env fs u d b roe).2.2 =
      (enforce_try now env fs u d b).2.2 := by
  rw [enforce_split now env fs u d b roe hb]
  cases h : (enforce_try now env fs u d b).2.2 with
  | ok v => rfl
  | error e => cases e <;> rfl

theorem enforce_trace (now : Nat) (env : Env) (fs : Fs) (u d b : String)
    (roe : Bool) (hb : strHasChar b ' ' = false) :
    (enforce_repo_state now env fs u d b roe).2.1 =
      (enforce_try now env fs u d b).2.1 := by
  rw [enforce_split now env fs u d b roe hb]
  cases h : (enforce_try now env fs u d b).2.2 with
  | ok v => rfl
  | error e => cases e <;> rfl

end RepoUtils

namespace RepoUtils

/-! ### Claim theorems -/

/-- C1 (counterexample): the 60-second freshness gate does NOT apply to the
destination path.  Here the destination `/src/repo` exists and was checked
(touched) only 5 seconds ago, yet `enforce_repo_state` still spawns a
fetch, because the gate reads the mtime of `/etc/passwd` (old here), not of
the destination. -/
theorem C1_dest_freshness_counterexample :
    Fs.isdir fsC1 "/src/repo" = true ∧
    100 - Fs.mtimeOf fsC1 "/src/repo" ≤ 60 ∧
    (enforce_repo_state 100 envZero fsC1 "u" "/src/repo" "b" true).2.1 =
      [Cmd.gitFetchAll "/src/repo", Cmd.touch "/src/repo",
       Cmd.gitReset "/src/repo" "b"] := by
  refine ⟨rfl, by decide, rfl⟩

/-- C1 (amended): when the destination path exists and the shared marker
file `/etc/passwd` was modified at most 60 seconds ago, `enforce_repo_state`
spawns no fetch subprocess and proceeds directly to the hard reset — its
whole subprocess trace is the single `git reset`.  The freshness gate reads
the shared marker file, not the destination path. -/
theorem C1_fresh_skips_fetch (now : Nat) (env : Env) (fs : Fs)
    (u d b : String) (roe : Bool)
    (hb : strHasChar b ' ' = false)
    (hdir : fs.isdir d = true)
    (hfresh : ¬(now - fs.mtimeOf etcPasswd > 60)) :
    (enforce_repo_state now env fs u d b roe).2.1 = [Cmd.gitReset d b] := by
  rw [enforce_trace now env fs u d b roe hb,
      try_fresh now env fs u d b hdir hfresh,
      reset_run now env fs u d b hb]

/-- Witness for C1's amended theorem at a concrete fresh state. -/
theorem C1_fresh_skips_fetch_witness :
    (enforce_repo_state 100 envZero fsFresh "u" "/src/teuthology_main" "main"
      true).2.1 = [Cmd.gitReset "/src/teuthology_main" "main"] :=
  C1_fresh_skips_fetch 100 envZero fsFresh "u" "/src/teuthology_main" "main"
    true (by decide) (by decide) (by decide)

/-- C2 (counterexample): a branch name containing whitespace other than a
space — here a TAB — is NOT rejected: `validate_branch` accepts it and
`clone_repo` proceeds to spawn the clone subprocess. -/
theorem C2_whitespace_counterexample :
    validate_branch "a\tb" = .ok () ∧
    (clone_repo 0 envZero fsNone "u" "/d" "a\tb").2.1 =
      [Cmd.gitClone "a\tb" "u" "/d"] ∧
    (clone_repo 0 envZero fsNone "u" "/d" "a\tb").2.2 = .ok () := by
  exact ⟨rfl, rfl, rfl⟩

/-- C2 (amended): for every branch name containing a SPACE character, each
branch-accepting operation — `enforce_repo_state`, `clone_repo`,
`fetch_branch`, `reset_repo` — independently fails with the
`InvalidBranchName` error before any subprocess is spawned: its trace is
empty and the filesystem is untouched. -/
theorem C2_space_rejected_everywhere (now : Nat) (env : Env) (fs : Fs)
    (u d p b : String) (roe : Bool) (h : strHasChar b ' ' = true) :
    enforce_repo_state now env fs u d b roe =
      (fs, [], .error (.invalidBranchName b)) ∧
    clone_repo now env fs u d b = (fs, [], .error (.invalidBranchName b)) ∧
    fetch_branch now env fs p b = (fs, [], .error (.invalidBranchName b)) ∧
    reset_repo now env fs u d b = (fs, [], .error (.invalidBranchName b)) := by
  refine ⟨?_, ?_, ?_, ?_⟩ <;>
    simp [enforce_repo_state, clone_repo, fetch_branch, reset_repo,
      validate_branch, h]

/-- Witness for C2's amended theorem at the concrete branch `"a b"`. -/
theorem C2_space_rejected_everywhere_witness :
    (enforce_repo_state 0 envZero fsNone "u" "/d" "a b" true).2.2 =
      .error (.invalidBranchName "a b") ∧
    (clone_repo 0 envZero fsNone "u" "/d" "a b").2.1 = [] ∧
    (fetch_branch 0 envZero fsNone "/d" "a b").2.1 = [] ∧
    (reset_repo 0 envZero fsNone "u" "/d" "a b").2.1 = [] := by
  have h := C2_space_rejected_everywhere 0 envZero fsNone "u" "/d" "/d" "a b"
    true (by decide)
  refine ⟨?_, ?_, ?_, ?_⟩
  · rw [h.1]
  · rw [h.2.1]
  · rw [h.2.2.1]
  · rw [h.2.2.2]

/-- C4: when the clone subprocess exits nonzero, `clone_repo` raises
`BranchNotFound` (carrying the branch and the remote URL) exactly when the
combined output contains `"Remote branch <branch> not found"`, and a
generic `RuntimeError` otherwise; a zero exit returns normally. -/
theorem C4_clone_error_classification (now : Nat) (env : Env) (fs : Fs)
    (u d b : String) (hb : strHasChar b ' ' = false) :
    ((env (Cmd.gitClone b u d)).exitCode = 0 →
      (clone_repo now env fs u d b).2.2 = .ok ()) ∧
    ((env (Cmd.gitClone b u d)).exitCode ≠ 0 →
      ((clone_repo now env fs u d b).2.2 =
          .error (.branchNotFound b (some u)) ↔
        strContains (env (Cmd.gitClone b u d)).output
          ("Remote branch " ++ b ++ " not found") = true) ∧
      (strContains (env (Cmd.gitClone b u d)).output
          ("Remote branch " ++ b ++ " not found") = false →
        (clone_repo now env fs u d b).2.2 =
          .error (.runtimeError "git clone failed!"))) := by
  rw [clone_run now env fs u d b hb]
  constructor
  · intro hz; simp [hz]
  · intro hz
    constructor
    · by_cases hs : strContains (env (Cmd.gitClone b u d)).output
          ("Remote branch " ++ b ++ " not found") = true <;> simp [hz, hs]
    · intro hs; simp [hz, hs]

/-- Witness for C4 at a concrete failing clone whose output names the
missing branch. -/
theorem C4_clone_error_classification_witness :
    (clone_repo 0 envCloneMissing fsNone "https://git.example/r.git" "/d"
      "nope").2.2 =
      .error (.branchNotFound "nope" (some "https://git.example/r.git")) := by
  have h := C4_clone_error_classification 0 envCloneMissing fsNone
    "https://git.example/r.git" "/d" "nope" (by decide)
  exact (h.2 (by decide)).1.mpr (by decide)

/-- C8: when the branch-fetch subprocess exits nonzero, `fetch_branch`
raises `BranchNotFound` exactly when the combined output contains the
distinct diagnostic `"fatal: Couldn't find remote ref <branch>"`, and a
generic `RuntimeError` otherwise; the general prune-fetch `fetch` never
raises `BranchNotFound` — on nonzero exit it raises only `RuntimeError`. -/
theorem C8_fetch_branch_classification (now : Nat) (env : Env) (fs : Fs)
    (p b : String) (hb : strHasChar b ' ' = false) :
    ((env (Cmd.gitFetchBranch p b)).exitCode = 0 →
      (fetch_branch now env fs p b).2.2 = .ok ()) ∧
    ((env (Cmd.gitFetchBranch p b)).exitCode ≠ 0 →
      ((fetch_branch now env fs p b).2.2 = .error (.branchNotFound b none) ↔
        strContains (env (Cmd.gitFetchBranch p b)).output
          ("fatal: Couldn\x27t find remote ref " ++ b) = true) ∧
      (strContains (env (Cmd.gitFetchBranch p b)).output
          ("fatal: Couldn\x27t find remote ref " ++ b) = false →
        (fetch_branch now env fs p b).2.2 =
          .error (.runtimeError "git fetch failed!"))) ∧
    (∀ bb uu, (fetch now env fs p).2.2 ≠ .error (.branchNotFound bb uu)) ∧
    ((env (Cmd.gitFetchAll p)).exitCode ≠ 0 →
      (fetch now env fs p).2.2 = .error (.runtimeError "git fetch failed!")) := by
  rw [fetch_branch_run now env fs p b hb, fetch_run now env fs p]
  refine ⟨?_, ?_, ?_, ?_⟩
  · intro hz; simp [hz]
  · intro hz
    constructor
    · by_cases hs : strContains (env (Cmd.gitFetchBranch p b)).output
          ("fatal: Couldn\x27t find remote ref " ++ b) = true <;> simp [hz, hs]
    · intro hs; simp [hz, hs]
  · intro bb uu
    by_cases hz : (env (Cmd.gitFetchAll p)).exitCode = 0 <;> simp [hz]
  · intro hz; simp [hz]

/-- Witness for C8 at a concrete failing branch-fetch whose output carries
the missing-ref diagnostic, plus the general fetch in the same environment. -/
theorem C8_fetch_branch_classification_witness :
    (fetch_branch 0 envFetchRefMissing fsNone "/d" "nope").2.2 =
      .error (.branchNotFound "nope" none) ∧
    (fetch 0 envFetchRefMissing fsNone "/d").2.2 ≠
      .error (.branchNotFound "nope" none) := by
  have h := C8_fetch_branch_classification 0 envFetchRefMissing fsNone "/d"
    "nope" (by decide)
  exact ⟨(h.2.1 (by decide)).1.mpr (by decide), h.2.2.1 "nope" none⟩

end RepoUtils

namespace RepoUtils

/-- C3: inside the top-level `enforce_repo_state` flow, the destination
tree is removed (recursively, via the never-raising
`shutil.rmtree(..., ignore_errors=True)` model) exactly when the `try:`
block raised `BranchNotFound` and the caller opted into cleanup
(`remove_on_error`); the error is re-raised unchanged to the caller; with
cleanup declined, or on any other error, or on success, the filesystem of
the `try:` block is left exactly in place. -/
theorem C3_cleanup_on_branch_not_found (now : Nat) (env : Env) (fs : Fs)
    (u d b : String) (roe : Bool) (hb : strHasChar b ' ' = false) :
    (enforce_repo_state now env fs u d b roe).2.2 =
      (enforce_try now env fs u d b).2.2 ∧
    (∀ bb uu,
      (enforce_try now env fs u d b).2.2 = .error (.branchNotFound bb uu) →
      (enforce_repo_state now env fs u d b roe).1 =
        (if roe then ((enforce_try now env fs u d b).1).rmtree d
         else (enforce_try now env fs u d b).1) ∧
      (roe = true →
        ((enforce_repo_state now env fs u d b roe).1).isdir d = false)) ∧
    (∀ e, (enforce_try now env fs u d b).2.2 = .error e →
      (∀ bb uu, e ≠ .branchNotFound bb uu) →
      (enforce_repo_state now env fs u d b roe).1 =
        (enforce_try now env fs u d b).1) ∧
    ((enforce_try now env fs u d b).2.2 = .ok () →
      (enforce_repo_state now env fs u d b roe).1 =
        (enforce_try now env fs u d b).1) := by
  refine ⟨enforce_result now env fs u d b roe hb, ?_, ?_, ?_⟩
  · intro bb uu h
    rw [enforce_split now env fs u d b roe hb]
    refine ⟨by simp [h], ?_⟩
    intro hroe
    simp [h, hroe, rmtree_isdir]
  · intro e he hne
    rw [enforce_split now env fs u d b roe hb]
    cases e with
    | invalidBranchName bb => simp [he]
    | branchNotFound bb uu => exact absurd rfl (hne bb uu)
    | runtimeError m => simp [he]
    | calledProcessError c => simp [he]
    | assertionError => simp [he]
  · intro h
    rw [enforce_split now env fs u d b roe hb]
    simp [h]

/-- Witness for C3: a missing branch on a concrete absent-destination run
with cleanup requested removes the destination and re-raises. -/
theorem C3_cleanup_on_branch_not_found_witness :
    (enforce_repo_state 0 envCloneMissing fsNone "u" "/d" "nope" true).2.2 =
      (enforce_try 0 envCloneMissing fsNone "u" "/d" "nope").2.2 ∧
    ((enforce_repo_state 0 envCloneMissing fsNone "u" "/d" "nope" true).1).isdir
      "/d" = false := by
  have h := C3_cleanup_on_branch_not_found 0 envCloneMissing fsNone "u" "/d"
    "nope" true (by decide)
  exact ⟨h.1, (h.2.1 "nope" (some "u") rfl).2 rfl⟩

/-- C5: every `enforce_repo_state` path — absent→clone, present-stale→fetch,
present-fresh→skip — converges on the hard reset (provided the steps before
the reset succeed), and a nonzero reset exit is raised as `BranchNotFound`
carrying the branch name and remote URL, regardless of the path taken. -/
theorem C5_all_paths_converge_on_reset (now : Nat) (env : Env) (fs : Fs)
    (u d b : String) (roe : Bool) (hb : strHasChar b ' ' = false)
    (hclone : fs.isdir d = false → (env (Cmd.gitClone b u d)).exitCode = 0)
    (hstale : fs.isdir d = true → now - fs.mtimeOf etcPasswd > 60 →
      (env (Cmd.gitFetchAll d)).exitCode = 0 ∧
      (env (Cmd.touch d)).exitCode = 0) :
    Cmd.gitReset d b ∈ (enforce_repo_state now env fs u d b roe).2.1 ∧
    ((env (Cmd.gitReset d b)).exitCode ≠ 0 →
      (enforce_repo_state now env fs u d b roe).2.2 =
        .error (.branchNotFound b (some u))) := by
  rw [enforce_trace now env fs u d b roe hb,
      enforce_result now env fs u d b roe hb]
  by_cases hdir : fs.isdir d = true
  · by_cases hst : now - fs.mtimeOf etcPasswd > 60
    · obtain ⟨hf, ht⟩ := hstale hdir hst
      rw [try_stale now env fs u d b hdir hst hf ht,
          reset_run now env (fs.touchFile d now) u d b hb]
      exact ⟨by simp, fun hr => by simp [hr]⟩
    · rw [try_fresh now env fs u d b hdir hst,
          reset_run now env fs u d b hb]
      exact ⟨by simp, fun hr => by simp [hr]⟩
  · have hdir2 : fs.isdir d = false := by
      cases hdd : fs.isdir d with
      | false => rfl
      | true => exact absurd hdd hdir
    rw [try_absent now env fs u d b hdir2 hb (hclone hdir2),
        reset_run now env (fs.mkdir d) u d b hb]
    exact ⟨by simp, fun hr => by simp [hr]⟩

/-- Witness for C5: a concrete fresh-path run whose reset fails is raised
as `BranchNotFound` with the branch and URL. -/
theorem C5_all_paths_converge_on_reset_witness :
    Cmd.gitReset "/src/teuthology_main" "main" ∈
      (enforce_repo_state 100 envResetFail fsFresh "u" "/src/teuthology_main"
        "main" true).2.1 ∧
    (enforce_repo_state 100 envResetFail fsFresh "u" "/src/teuthology_main"
      "main" true).2.2 = .error (.branchNotFound "main" (some "u")) := by
  have h := C5_all_paths_converge_on_reset 100 envResetFail fsFresh "u"
    "/src/teuthology_main" "main" true (by decide) (by decide) (by decide)
  exact ⟨h.1, h.2 (by decide)⟩

/-- C6: the claim is right about the intent but the code touches the wrong
file.  On the stale path the code runs `touch dest_path`, while the
staleness gate reads the mtime of `/etc/passwd`; so after a stale run that
fetched successfully, the shared marker's mtime is unchanged (only the
destination's is updated), and a reconciliation of the same repository 10
seconds later does NOT observe the fresh condition — it spawns a fetch
again, contradicting both the claim and the code's own "only do this at
most once per minute" comment. -/
theorem C6_touch_misses_shared_marker :
    (Cmd.touch "/src/repo") ∈
      (enforce_repo_state 100 envZero fsC1 "u" "/src/repo" "b" true).2.1 ∧
    ((enforce_repo_state 100 envZero fsC1 "u" "/src/repo" "b" true).1).mtimeOf
      etcPasswd = fsC1.mtimeOf etcPasswd ∧
    ((enforce_repo_state 100 envZero fsC1 "u" "/src/repo" "b" true).1).mtimeOf
      "/src/repo" = 100 ∧
    (Cmd.gitFetchAll "/src/repo") ∈
      (enforce_repo_state 110 envZero
        (enforce_repo_state 100 envZero fsC1 "u" "/src/repo" "b" true).1
        "u" "/src/repo" "b" true).2.1 := by
  refine ⟨by decide, rfl, rfl, by decide⟩

end RepoUtils

namespace RepoUtils

theorem removeFile_gone (fs : Fs) (p : String) :
    (fs.removeFile p).fileExists p = false := by
  cases hc : (fs.removeFile p).fileExists p with
  | false => rfl
  | true =>
    have hm : p ∈ fs.files.filter (fun q => q != p) := List.elem_iff.mp hc
    rw [List.mem_filter] at hm
    simp at hm

theorem withLock_noop {β : Type} (fs : Fs) (lk : FileLock)
    (body : Fs → Fs × β × Except RepoErr Unit) (hn : lk.noop = true) :
    withFileLock fs lk body =
      ((body fs).1, lk, some (body fs).2.1, (body fs).2.2) := by
  simp [withFileLock, FileLock.enter, FileLock.exit, hn]

theorem withLock_nonoop {β : Type} (fs : Fs) (lk : FileLock)
    (body : Fs → Fs × β × Except RepoErr Unit)
    (hn : lk.noop = false) (h0 : lk.file = none) :
    withFileLock fs lk body =
      ((if ((body (fs.createFile lk.filename)).1).fileExists lk.filename then
          ((body (fs.createFile lk.filename)).1).removeFile lk.filename
        else (body (fs.createFile lk.filename)).1),
       { lk with file := none },
       some (body (fs.createFile lk.filename)).2.1,
       (body (fs.createFile lk.filename)).2.2) := by
  simp [withFileLock, FileLock.enter, FileLock.exit, hn, h0]

/-- C7: for every non-noop `FileLock` entered with no prior open handle, on
scope exit — whether the guarded body succeeded or raised — the lock is
released: the handle is back to `None`, the lock file no longer exists on
disk (deleted if present, and a missing file raises nothing), and the
body's own outcome is what propagates. -/
theorem C7_lock_released_on_scope_exit (fs : Fs) {β : Type}
    (body : Fs → Fs × β × Except RepoErr Unit) (lk : FileLock)
    (hn : lk.noop = false) (h0 : lk.file = none) :
    ((withFileLock fs lk body).2.1).file = none ∧
    ((withFileLock fs lk body).1).fileExists lk.filename = false ∧
    (withFileLock fs lk body).2.2.2 = (body (fs.createFile lk.filename)).2.2 := by
  rw [withLock_nonoop fs lk body hn h0]
  refine ⟨rfl, ?_, rfl⟩
  cases he : ((body (fs.createFile lk.filename)).1).fileExists lk.filename with
  | true => simp [he, removeFile_gone]
  | false => simp [he]

/-- Witness for C7: a raising body under a concrete non-noop lock still
releases the handle and deletes the lock file, and the body's error
propagates. -/
theorem C7_lock_released_on_scope_exit_witness :
    ((withFileLock fsFresh lockA bodyFail).2.1).file = none ∧
    ((withFileLock fsFresh lockA bodyFail).1).fileExists
      "/src/teuthology_main.lock" = false ∧
    (withFileLock fsFresh lockA bodyFail).2.2.2 =
      .error (.runtimeError "boom") := by
  have h := C7_lock_released_on_scope_exit fsFresh bodyFail lockA rfl rfl
  exact ⟨h.1, h.2.1, h.2.2⟩

/-- C10: after any balanced `__enter__`/`__exit__` pair started from a
handle-free `FileLock` (noop or not, body succeeding or raising), the
object's handle is `None` again, so the no-prior-open-handle assertion in
`__enter__` holds on a sequential re-acquisition against any filesystem. -/
theorem C10_handle_none_after_balanced_pair (fs fs2 : Fs) {β : Type}
    (body : Fs → Fs × β × Except RepoErr Unit) (lk : FileLock)
    (h0 : lk.file = none) :
    ((withFileLock fs lk body).2.1).file = none ∧
    exceptOk (FileLock.enter fs2 (withFileLock fs lk body).2.1) = true := by
  cases hn : lk.noop with
  | true =>
    rw [withLock_noop fs lk body hn]
    exact ⟨h0, by simp [FileLock.enter, hn, exceptOk]⟩
  | false =>
    rw [withLock_nonoop fs lk body hn h0]
    exact ⟨rfl, by simp [FileLock.enter, hn, exceptOk]⟩

/-- Witness for C10: a concrete balanced pair leaves the handle `None` and
a re-acquisition's assertion holds. -/
theorem C10_handle_none_after_balanced_pair_witness :
    ((withFileLock fsFresh lockA bodyOk).2.1).file = none ∧
    exceptOk (FileLock.enter fsNone (withFileLock fsFresh lockA bodyOk).2.1) =
      true :=
  C10_handle_none_after_balanced_pair fsFresh fsNone bodyOk lockA rfl

end RepoUtils

namespace RepoUtils

/-- C9: whenever the reconciliation inside `fetch_teuthology_branch`
succeeds, the bootstrap script is spawned with `NO_CLOBBER` set to the
truthy value `"1"`, its exit status is logged, a nonzero status is
additionally logged as warnings holding its (stripped) output lines, and a
nonzero bootstrap status does not abort the caller: the destination path is
still returned. -/
theorem C9_bootstrap_nonfatal (now : Nat) (env : Env) (fs : Fs)
    (sbp gub branch : String) (lock : Bool)
    (hok : (enforce_repo_state now env
        (if lock then
          fs.createFile
            (rstripSlashes (pathJoin sbp ("teuthology_" ++ branch)) ++ ".lock")
        else fs)
        (gub ++ "teuthology.git") (pathJoin sbp ("teuthology_" ++ branch))
        branch true).2.2 = .ok ()) :
    (fetch_teuthology_branch now env fs sbp gub branch lock).2.2.2 =
      .ok (pathJoin sbp ("teuthology_" ++ branch)) ∧
    Cmd.bootstrap (pathJoin sbp ("teuthology_" ++ branch)) "1" ∈
      (fetch_teuthology_branch now env fs sbp gub branch lock).2.1 ∧
    (fetch_teuthology_branch now env fs sbp gub branch lock).2.2.1 =
      (if (env (Cmd.bootstrap (pathJoin sbp ("teuthology_" ++ branch))
            "1")).exitCode ≠ 0 then
        (strSplitNl (env (Cmd.bootstrap (pathJoin sbp ("teuthology_" ++ branch))
            "1")).output).map (fun l => LogEntry.warn (strTrim l))
      else [])
      ++ [LogEntry.info ("Bootstrap exited with status " ++
            toString (env (Cmd.bootstrap (pathJoin sbp ("teuthology_" ++ branch))
              "1")).exitCode)] := by
  cases lock with
  | false =>
    have hok2 : (enforce_repo_state now env fs (gub ++ "teuthology.git")
        (pathJoin sbp ("teuthology_" ++ branch)) branch true).2.2 = .ok () := by
      simpa using hok
    simp [fetch_teuthology_branch, FileLock.init, withFileLock,
      FileLock.enter, FileLock.exit, hok2]
  | true =>
    have hok2 : (enforce_repo_state now env
        (fs.createFile
          (rstripSlashes (pathJoin sbp ("teuthology_" ++ branch)) ++ ".lock"))
        (gub ++ "teuthology.git") (pathJoin sbp ("teuthology_" ++ branch))
        branch true).2.2 = .ok () := by
      simpa using hok
    simp [fetch_teuthology_branch, FileLock.init, withFileLock,
      FileLock.enter, FileLock.exit, hok2]

/-- Witness for C9: a concrete run whose reconciliation succeeds but whose
bootstrap exits 2 still returns the destination path, with the warning and
status log entries present. -/
theorem C9_bootstrap_nonfatal_witness :
    (fetch_teuthology_branch 100 envBootFail fsFresh "/src"
      "https://git.example/" "main" false).2.2.2 =
      .ok (pathJoin "/src" ("teuthology_" ++ "main")) ∧
    Cmd.bootstrap (pathJoin "/src" ("teuthology_" ++ "main")) "1" ∈
      (fetch_teuthology_branch 100 envBootFail fsFresh "/src"
        "https://git.example/" "main" false).2.1 := by
  have h := C9_bootstrap_nonfatal 100 envBootFail fsFresh "/src"
    "https://git.example/" "main" false rfl
  exact ⟨h.1, h.2.1⟩

end RepoUtils
